import Mathlib

/-!
Shallow embedding of the IIoT repository core (zabimary12/IIoT) for checking
its natural-language specification.

Part 1 models `src/agent/src/file_datasource.py` (class `FileDatasource`).
Part 2 models `src/Store/main.py` (the FastAPI store: CRUD endpoints,
subscription registry and fanout).

File handles are modelled as an `Option Nat` cursor (the index of the next
line to read) into the file's fixed list of lines; `none` means the handle
is not open.  Python floats are modelled as `Rat`; `float(str)` is modelled
by a plain decimal parser.  Exceptions are modelled by explicit error
results.
-/

namespace IIoT

/-! ### Python `float` parsing, modelling `float(field)` on decimal literals -/

def digitsVal (cs : List Char) : Nat :=
  cs.foldl (fun acc c => 10 * acc + c.toNat - '0'.toNat) 0

/-- Model of Python `float(s)` on plain decimal literals: an optional sign,
an integer part and an optional fractional part; anything else fails with
`ValueError` (`none`). -/
def parseFloat (s : String) : Option Rat :=
  let core : List Char → Option Rat := fun cs =>
    let intPart := cs.takeWhile Char.isDigit
    let rest := cs.dropWhile Char.isDigit
    match rest with
    | [] => if intPart.isEmpty then none else some (digitsVal intPart : Rat)
    | '.' :: frac =>
      if frac.all Char.isDigit ∧ ¬(intPart.isEmpty ∧ frac.isEmpty) then
        some ((digitsVal intPart : Rat) +
          (digitsVal frac : Rat) / ((10 : Rat) ^ frac.length))
      else none
    | _ => none
  match s.data with
  | '-' :: cs => (core cs).map (fun q => -q)
  | cs => core cs

/-- Split a character list at commas, accumulating the current field in
reverse. -/
def splitFields : List Char → List Char → List String
  | [], acc => [String.mk acc.reverse]
  | c :: cs, acc =>
    if c = ',' then String.mk acc.reverse :: splitFields cs []
    else splitFields cs (c :: acc)

/-- Model of one `csv.reader` row for unquoted comma-separated fields. -/
def csvSplit (s : String) : List String :=
  splitFields s.data []

/-! ### Agent domain records.

The `domain` modules are not under `src/`.  Modelled from the spec (§3):
`MotionSample` has three float axes, `PositionSample` has latitude and
longitude, `ParkingSample` has an available-slot count plus a position, and
`AggregatedSample` combines them with a timestamp and the owning user id. -/

/-- Modelled from the spec: `domain.accelerometer.Accelerometer`, three
float axes (§3 MotionSample). -/
structure Accelerometer where
  x : Rat
  y : Rat
  z : Rat
deriving DecidableEq, Repr

/-- Modelled from the spec: `domain.gps.Gps`, latitude and longitude
(§3 PositionSample). -/
structure Gps where
  latitude : Rat
  longitude : Rat
deriving DecidableEq, Repr

/-- Modelled from the spec: `domain.parking.Parking`, an available-slot
count plus a position (§3 ParkingSample). -/
structure Parking where
  empty_count : Rat
  gps : Gps
deriving DecidableEq, Repr

/-- Modelled from the spec: `domain.aggregated_data.AggregatedData`
(§3 AggregatedSample).  The capture timestamp (`datetime.now()`) is an
abstract clock value supplied by the caller of `read`. -/
structure AggregatedData where
  accelerometer : Accelerometer
  gps : Gps
  parking : Parking
  timestamp : Int
  user_id : Int
deriving DecidableEq, Repr

/-- Modelled from the spec: the agent `config` module supplies a fixed
owning user identifier `USER_ID`; its concrete value is irrelevant to the
claims. -/
def config_USER_ID : Int := 1

/-! ### FileDatasource state -/

/-- State of `FileDatasource`: the three file contents (lists of lines,
header included) and the three handles.  A handle `some p` is an open file
whose next `next(...)` call reads line `p`; `none` is a not-opened handle,
as set by `__init__`. -/
structure FileDatasource where
  accelerometer_content : List String
  gps_content : List String
  parking_content : List String
  accelerometer_file : Option Nat
  gps_file : Option Nat
  parking_file : Option Nat
deriving DecidableEq, Repr

/-- Model of `next(...)` on an open line iterator: return the line at the
cursor and advance, or `none` for `StopIteration` at end of file. -/
def readLine (cs : List String) (p : Nat) : Option (String × Nat) :=
  if h : p < cs.length then some (cs[p], p + 1) else none

/-- Errors raised while parsing one data line. -/
inductive ParseErr where
  | badFloat
  | badArity
  | unpackMismatch
deriving DecidableEq, Repr

/-- Exceptions that can escape `FileDatasource.read` /
`FileDatasource.startReading`. -/
inductive AgentErr where
  | valueErrorNotOpened
  | typeErrorReaderNone
  | stopIterationHeader
  | parse (e : ParseErr)
deriving DecidableEq, Repr

/-- `Accelerometer(*map(float, cols))`: all fields are converted to float
(a malformed field raises `ValueError`), then the constructor requires
exactly three arguments (`TypeError` otherwise). -/
def parseAcc (l : String) : Except ParseErr Accelerometer :=
  match (csvSplit l).mapM parseFloat with
  | none => .error .badFloat
  | some [a, b, c] => .ok ⟨a, b, c⟩
  | some _ => .error .badArity

/-- `Gps(*map(float, cols))`: two float fields. -/
def parseGps (l : String) : Except ParseErr Gps :=
  match (csvSplit l).mapM parseFloat with
  | none => .error .badFloat
  | some [a, b] => .ok ⟨a, b⟩
  | some _ => .error .badArity

/-- `empty_count, latitude, longitude = map(float, cols)` followed by
`Parking(empty_count, Gps(latitude, longitude))`: three float fields,
a wrong count raises `ValueError` from unpacking. -/
def parseParking (l : String) : Except ParseErr Parking :=
  match (csvSplit l).mapM parseFloat with
  | none => .error .badFloat
  | some [a, b, c] => .ok ⟨a, ⟨b, c⟩⟩
  | some _ => .error .unpackMismatch

/-- Result of one iteration of the `while True` body of
`FileDatasource.read`: a returned sample, a caught `StopIteration`, or an
uncaught exception.  Each constructor carries the file state at that
point (already-consumed lines stay consumed). -/
inductive ReadResult where
  | ok (d : AggregatedData) (s : FileDatasource)
  | stop (s : FileDatasource)
  | err (e : AgentErr) (s : FileDatasource)
deriving DecidableEq, Repr

/-- One iteration of the `try:` body of `FileDatasource.read`: the guard
`if not (self.accelerometer_file and self.gps_file)` (which checks only
those two handles), then one line from each of the three streams in order,
each parsed into its record.  `now` stands for `datetime.now()`. -/
def readAttempt (now : Int) (s : FileDatasource) : ReadResult :=
  if s.accelerometer_file.isNone || s.gps_file.isNone then
    .err .valueErrorNotOpened s
  else
    match s.accelerometer_file with
    | none => .err .typeErrorReaderNone s
    | some pa =>
      match readLine s.accelerometer_content pa with
      | none => .stop s
      | some (la, pa') =>
        let s1 : FileDatasource := { s with accelerometer_file := some pa' }
        match parseAcc la with
        | .error e => .err (.parse e) s1
        | .ok acc =>
          match s1.gps_file with
          | none => .err .typeErrorReaderNone s1
          | some pg =>
            match readLine s1.gps_content pg with
            | none => .stop s1
            | some (lg, pg') =>
              let s2 : FileDatasource := { s1 with gps_file := some pg' }
              match parseGps lg with
              | .error e => .err (.parse e) s2
              | .ok gps =>
                match s2.parking_file with
                | none => .err .typeErrorReaderNone s2
                | some pp =>
                  match readLine s2.parking_content pp with
                  | none => .stop s2
                  | some (lp, pp') =>
                    let s3 : FileDatasource := { s2 with parking_file := some pp' }
                    match parseParking lp with
                    | .error e => .err (.parse e) s3
                    | .ok parking =>
                      .ok ⟨acc, gps, parking, now, config_USER_ID⟩ s3

/-- `FileDatasource.startReading`: open all three files (cursor 0) and
discard one header line from each (`next(file)`); a header `next` on an
empty file raises `StopIteration`, which is not caught there. -/
def startReading (s : FileDatasource) : FileDatasource × Option AgentErr :=
  let s0 : FileDatasource :=
    { s with accelerometer_file := some 0, gps_file := some 0, parking_file := some 0 }
  if s0.accelerometer_content.length = 0 then (s0, some .stopIterationHeader)
  else
    let s1 : FileDatasource := { s0 with accelerometer_file := some 1 }
    if s1.gps_content.length = 0 then (s1, some .stopIterationHeader)
    else
      let s2 : FileDatasource := { s1 with gps_file := some 1 }
      if s2.parking_content.length = 0 then (s2, some .stopIterationHeader)
      else ({ s2 with parking_file := some 1 }, none)

/-- `FileDatasource.read`: `while True: try: ... except StopIteration:
self.startReading()`.  The `fuel` argument bounds the number of loop
iterations of the embedding; `none` means the loop did not finish within
`fuel` iterations.  On `StopIteration` the whole read is retried after
`startReading` reopens all three files; any other exception propagates. -/
def readLoop (now : Int) : Nat → FileDatasource →
    Option (Except AgentErr (AggregatedData × FileDatasource))
  | 0, _ => none
  | fuel + 1, s =>
    match readAttempt now s with
    | .ok d s' => some (.ok (d, s'))
    | .err e _ => some (.error e)
    | .stop s' =>
      match startReading s' with
      | (s'', none) => readLoop now fuel s''
      | (_, some e) => some (.error e)

/-- `n` successive calls of `FileDatasource.read` (each with loop fuel 2),
collecting the returned samples. -/
def readN (now : Int) : Nat → FileDatasource →
    Option (Except AgentErr (List AggregatedData × FileDatasource))
  | 0, s => some (.ok ([], s))
  | n + 1, s =>
    match readLoop now 2 s with
    | some (.ok (d, s')) =>
      match readN now n s' with
      | some (.ok (ds, s'')) => some (.ok (d :: ds, s''))
      | other => other
    | some (.error e) => some (.error e)
    | none => none

/-! ### Part 2: the Store (`src/Store/main.py`) -/

/-- A Python value that is either a plain value or the one-element tuple
`(v,)` produced by a trailing comma in an assignment. -/
inductive PyField (α : Type) where
  | val : α → PyField α
  | tup1 : α → PyField α
deriving DecidableEq, Repr

/-- Exceptions arising in the store endpoints. -/
inductive PyExc where
  | typeErrorNotSerializable
  | sendFailure
  | keyError
  | pydanticValidation
deriving DecidableEq, Repr

/-- HTTP-level outcome of an endpoint call: a framework validation error
(422), a persistence failure, or an unhandled exception (500). -/
inductive HttpErr where
  | validationError
  | persistenceError
  | serverError (e : PyExc)
deriving DecidableEq, Repr

/-- `AccelerometerData` pydantic model. -/
structure AccelerometerData where
  x : Rat
  y : Rat
  z : Rat
deriving DecidableEq, Repr

/-- `GpsData` pydantic model. -/
structure GpsData where
  latitude : Rat
  longitude : Rat
deriving DecidableEq, Repr

/-- `AgentData` pydantic model after validation: the timestamp has been
parsed to a datetime (modelled as `Int`). -/
structure AgentData where
  user_id : Int
  accelerometer : AccelerometerData
  gps : GpsData
  timestamp : Int
deriving DecidableEq, Repr

/-- `ProcessedAgentData` pydantic model after validation. -/
structure ProcessedAgentData where
  road_state : String
  agent_data : AgentData
deriving DecidableEq, Repr

/-- An `AgentData` payload as submitted on the wire: the timestamp is still
an unparsed string. -/
structure RawAgentData where
  user_id : Int
  accelerometer : AccelerometerData
  gps : GpsData
  timestamp : String
deriving DecidableEq, Repr

/-- A `ProcessedAgentData` payload as submitted on the wire. -/
structure RawProcessedAgentData where
  road_state : String
  agent_data : RawAgentData
deriving DecidableEq, Repr

/-- Modelled from the spec (§6): timestamp strings must parse as ISO-8601
datetimes; the actual parsing is done by pydantic, external to `src/`.
Modelled for the fixed-width format `YYYY-MM-DDTHH:MM:SS`, encoding the
digits as one integer. -/
def parseIsoTimestamp (s : String) : Option Int :=
  match s.data with
  | [y1, y2, y3, y4, '-', m1, m2, '-', d1, d2, 'T', h1, h2, ':', n1, n2, ':', c1, c2] =>
    let ds := [y1, y2, y3, y4, m1, m2, d1, d2, h1, h2, n1, n2, c1, c2]
    if ds.all Char.isDigit then some (digitsVal ds : Int) else none
  | _ => none

/-- Framework validation of one submitted record (pydantic parsing of the
request body): the nested timestamp string must parse as a datetime. -/
def validateRecord (r : RawProcessedAgentData) : Option ProcessedAgentData :=
  (parseIsoTimestamp r.agent_data.timestamp).map fun t =>
    ⟨r.road_state, ⟨r.agent_data.user_id, r.agent_data.accelerometer, r.agent_data.gps, t⟩⟩

/-- Framework validation of the whole submitted batch
(`data: List[ProcessedAgentData]`): any invalid record rejects the entire
request before the handler runs. -/
def validateBatch : List RawProcessedAgentData → Option (List ProcessedAgentData)
  | [] => some []
  | r :: rs =>
    match validateRecord r, validateBatch rs with
    | some v, some vs => some (v :: vs)
    | _, _ => none

/-- A `ProcessedAgentDataDbModel` instance before insertion: the flat row
fields, the id not yet assigned. -/
structure DbPending where
  road_state : String
  user_id : Int
  x : Rat
  y : Rat
  z : Rat
  latitude : Rat
  longitude : Rat
  timestamp : Int
deriving DecidableEq, Repr

/-- A committed `processed_agent_data` row.  Each field is a `PyField`
because the update endpoint's trailing-comma assignments can store
one-element tuples in place of plain values. -/
structure DbRow where
  id : Nat
  road_state : PyField String
  user_id : PyField Int
  x : PyField Rat
  y : PyField Rat
  z : PyField Rat
  latitude : PyField Rat
  longitude : PyField Rat
  timestamp : PyField Int
deriving DecidableEq, Repr

/-- `ProcessedAgentDataInDB` pydantic model: the response shape. -/
structure ProcessedAgentDataInDB where
  id : Nat
  road_state : String
  user_id : Int
  x : Rat
  y : Rat
  z : Rat
  latitude : Rat
  longitude : Rat
  timestamp : Int
deriving DecidableEq, Repr

/-- `convert_agent_data`: flatten a validated submitted record into a
row-shaped object with the identifier unset. -/
def convert_agent_data (raw : ProcessedAgentData) : DbPending :=
  ⟨raw.road_state, raw.agent_data.user_id,
    raw.agent_data.accelerometer.x, raw.agent_data.accelerometer.y,
    raw.agent_data.accelerometer.z,
    raw.agent_data.gps.latitude, raw.agent_data.gps.longitude,
    raw.agent_data.timestamp⟩

/-- Commit a pending object as a row with a database-assigned id; all
fields are plain values. -/
def pendingToRow (i : Nat) (p : DbPending) : DbRow :=
  ⟨i, .val p.road_state, .val p.user_id, .val p.x, .val p.y, .val p.z,
    .val p.latitude, .val p.longitude, .val p.timestamp⟩

/-- Autoincrement id assignment for a batch insert, returning the new rows
and the next free id. -/
def assignIds (nid : Nat) : List DbPending → List DbRow × Nat
  | [] => ([], nid)
  | p :: ps =>
    let (rs, n') := assignIds (nid + 1) ps
    (pendingToRow nid p :: rs, n')

/-- `ProcessedAgentDataInDB.model_validate`: pydantic revalidation of an
ORM object.  A field holding a one-element tuple instead of a plain value
fails validation. -/
def model_validate (r : DbRow) : Except PyExc ProcessedAgentDataInDB :=
  match r.road_state, r.user_id, r.x, r.y, r.z, r.latitude, r.longitude, r.timestamp with
  | .val rs, .val uid, .val x, .val y, .val z, .val la, .val lo, .val ts =>
    .ok ⟨r.id, rs, uid, x, y, z, la, lo, ts⟩
  | _, _, _, _, _, _, _, _ => .error .pydanticValidation

/-! ### Subscription registry and fanout -/

/-- The process-wide `subscriptions: Dict[int, Set[WebSocket]]`, modelled
as an association list in dict insertion order; each user's set of
websocket handles is a duplicate-free list. -/
abbrev Subscriptions : Type := List (Int × List Nat)

/-- Dict lookup `subscriptions[user_id]` / `user_id in subscriptions`. -/
def subsLookup (subs : Subscriptions) (uid : Int) : Option (List Nat) :=
  match subs with
  | [] => none
  | (k, v) :: rest => if k = uid then some v else subsLookup rest uid

/-- Replace the set stored under a user id. -/
def subsUpdate (subs : Subscriptions) (uid : Int) (l : List Nat) : Subscriptions :=
  match subs with
  | [] => []
  | (k, v) :: rest =>
    if k = uid then (k, l) :: rest else (k, v) :: subsUpdate rest uid l

/-- Connect step of `websocket_endpoint`: create the user's entry if
missing, then `set.add` the handle (no duplicates, set semantics). -/
def websocket_connect (subs : Subscriptions) (uid : Int) (ws : Nat) : Subscriptions :=
  match subsLookup subs uid with
  | none => subs ++ [(uid, [ws])]
  | some l => subsUpdate subs uid (if ws ∈ l then l else l ++ [ws])

/-- Disconnect step of `websocket_endpoint`
(`subscriptions[user_id].remove(websocket)`): a missing dict key or
`set.remove` of an absent element raises `KeyError`. -/
def subscriptions_remove (subs : Subscriptions) (uid : Int) (ws : Nat) :
    Except PyExc Subscriptions :=
  match subsLookup subs uid with
  | none => .error .keyError
  | some l =>
    if ws ∈ l then .ok (subsUpdate subs uid (l.erase ws)) else .error .keyError

/-- The argument shapes passed to `json.dumps` in this file: the list of
`ProcessedAgentDataDbModel` objects from the create path, or a single one
from the update path. -/
inductive Dumpable where
  | pendingList : List DbPending → Dumpable
  | rowObj : DbRow → Dumpable
deriving DecidableEq, Repr

/-- Model of Python `json.dumps` on the shapes above: an empty list
serializes to the string of an empty JSON array, while any
`ProcessedAgentDataDbModel` instance is not JSON serializable and raises
`TypeError`. -/
def json_dumps (d : Dumpable) : Except PyExc String :=
  match d with
  | .pendingList [] => .ok "[]"
  | .pendingList (_ :: _) => .error .typeErrorNotSerializable
  | .rowObj _ => .error .typeErrorNotSerializable

/-- The inner loop of `send_data_to_subscribers`:
`for websocket in subscriptions[user_id]: await
websocket.send_json(json.dumps(data))`.  `env ws` says whether a send on
handle `ws` succeeds; a serialization or send exception propagates at
once, keeping the deliveries made so far. -/
def sendLoop (env : Nat → Bool) (data : Dumpable) :
    List Nat → List (Nat × String) × Option PyExc
  | [] => ([], none)
  | ws :: rest =>
    match json_dumps data with
    | .error e => ([], some e)
    | .ok msg =>
      if env ws then
        let (d, e?) := sendLoop env data rest
        ((ws, msg) :: d, e?)
      else ([], some .sendFailure)

/-- `send_data_to_subscribers(user_id, data)`: nothing happens for an
unregistered user id; otherwise every handle in that user's set is sent
the serialized data in turn. -/
def send_data_to_subscribers (env : Nat → Bool) (subs : Subscriptions)
    (uid : Int) (data : Dumpable) : List (Nat × String) × Option PyExc :=
  match subsLookup subs uid with
  | none => ([], none)
  | some wss => sendLoop env data wss

/-- The fanout loops of the create and update endpoints:
`for user in subscriptions: await send_data_to_subscribers(user, data)` —
every registered user id, not only the records' owners.  An exception
stops the loop and propagates. -/
def fanoutKeys (env : Nat → Bool) (subs : Subscriptions) (data : Dumpable) :
    List Int → List (Nat × String) × Option PyExc
  | [] => ([], none)
  | uid :: rest =>
    match send_data_to_subscribers env subs uid data with
    | (d, some e) => (d, some e)
    | (d, none) =>
      let (d', e?) := fanoutKeys env subs data rest
      (d ++ d', e?)

/-- Server state: committed rows, the next autoincrement id, and the
subscription registry. -/
structure AppState where
  rows : List DbRow
  nextId : Nat
  subscriptions : List (Int × List Nat)
deriving DecidableEq, Repr

/-- Decidable equality for `Except`, needed to evaluate endpoint results
on concrete inputs. -/
instance instDecEqExcept {ε α : Type} [DecidableEq ε] [DecidableEq α] :
    DecidableEq (Except ε α) := fun a b =>
  match a, b with
  | .ok x, .ok y =>
    if h : x = y then .isTrue (by rw [h]) else .isFalse (by simp [h])
  | .error x, .error y =>
    if h : x = y then .isTrue (by rw [h]) else .isFalse (by simp [h])
  | .ok _, .error _ => .isFalse (by simp)
  | .error _, .ok _ => .isFalse (by simp)

/-- Outcome of one endpoint call: the state afterwards, the websocket
messages actually delivered, and the HTTP response. -/
structure EndpointResult (α : Type) where
  state : AppState
  delivered : List (Nat × String)
  response : Except HttpErr α
deriving DecidableEq, Repr

/-- `POST /processed_agent_data/` (`create_processed_agent_data`): the
framework validates the batch (422 on failure, handler not run), the
handler converts every record, inserts them all and commits in one
session (`commitOk` models whether the transactional engine commits; a
rollback leaves the store unchanged), then loops over every registered
user id sending the converted list to that user's subscribers. -/
def create_processed_agent_data (env : Nat → Bool) (st : AppState)
    (raw : List RawProcessedAgentData) (commitOk : Bool) : EndpointResult Unit :=
  match validateBatch raw with
  | none => ⟨st, [], .error .validationError⟩
  | some data =>
    let converted := data.map convert_agent_data
    if commitOk then
      let (newRows, nid) := assignIds st.nextId converted
      let st' : AppState := ⟨st.rows ++ newRows, nid, st.subscriptions⟩
      let (deliv, e?) := fanoutKeys env st'.subscriptions (.pendingList converted)
        (st'.subscriptions.map Prod.fst)
      match e? with
      | some e => ⟨st', deliv, .error (.serverError e)⟩
      | none => ⟨st', deliv, .ok ()⟩
    else ⟨st, [], .error .persistenceError⟩

/-- `GET /processed_agent_data/{id}` (`read_processed_agent_data`): fetch
by primary key, `None` when absent, otherwise the row revalidated through
`ProcessedAgentDataInDB.model_validate`. -/
def read_processed_agent_data (st : AppState) (pid : Nat) :
    Except HttpErr (Option ProcessedAgentDataInDB) :=
  match st.rows.find? (fun r => r.id == pid) with
  | none => .ok none
  | some r =>
    match model_validate r with
    | .ok v => .ok (some v)
    | .error e => .error (.serverError e)

/-- `PUT /processed_agent_data/{id}` (`update_processed_agent_data`):
fetch the row, assign every mutable field from the converted data — each
source assignment ends in a trailing comma, so each field receives the
one-element tuple `(value,)` — commit (modelled as succeeding), fan out
the ORM object to every registered user id, and revalidate it for the
response. -/
def update_processed_agent_data (env : Nat → Bool) (st : AppState) (pid : Nat)
    (data : ProcessedAgentData) : EndpointResult (Option ProcessedAgentDataInDB) :=
  match st.rows.find? (fun r => r.id == pid) with
  | none => ⟨st, [], .ok none⟩
  | some entry =>
    let c := convert_agent_data data
    let entry' : DbRow :=
      ⟨entry.id, .tup1 c.road_state, .tup1 c.user_id, .tup1 c.x, .tup1 c.y,
        .tup1 c.z, .tup1 c.latitude, .tup1 c.longitude, .tup1 c.timestamp⟩
    let st' : AppState :=
      { st with rows := st.rows.map (fun r => if r.id == pid then entry' else r) }
    let (deliv, e?) := fanoutKeys env st'.subscriptions (.rowObj entry')
      (st'.subscriptions.map Prod.fst)
    match e? with
    | some e => ⟨st', deliv, .error (.serverError e)⟩
    | none =>
      match model_validate entry' with
      | .ok v => ⟨st', deliv, .ok (some v)⟩
      | .error e => ⟨st', deliv, .error (.serverError e)⟩

/-- `DELETE /processed_agent_data/{id}` (`delete_processed_agent_data`):
fetch the row, `None` when absent; otherwise delete it, commit, and
return the previously fetched object revalidated for the response. -/
def delete_processed_agent_data (st : AppState) (pid : Nat) :
    AppState × Except HttpErr (Option ProcessedAgentDataInDB) :=
  match st.rows.find? (fun r => r.id == pid) with
  | none => (st, .ok none)
  | some entry =>
    let st' : AppState := { st with rows := st.rows.filter (fun r => ¬r.id = pid) }
    match model_validate entry with
    | .ok v => (st', .ok (some v))
    | .error e => (st', .error (.serverError e))

/-! ### Predicates and concrete example data used by the claims -/

/-- Whether an `Except` result is a success. -/
def exceptOk {ε α : Type} : Except ε α → Bool
  | .ok _ => true
  | .error _ => false

/-- A line that `Accelerometer(*map(float, cols))` accepts. -/
def accLineOk (l : String) : Bool := exceptOk (parseAcc l)

/-- A line that `Gps(*map(float, cols))` accepts. -/
def gpsLineOk (l : String) : Bool := exceptOk (parseGps l)

/-- A line that the parking unpacking accepts. -/
def parkingLineOk (l : String) : Bool := exceptOk (parseParking l)

/-- A sensor file suitable for continuous reading: at least one header
line plus one data line, every data line (index ≥ 1) well formed for the
given parser. -/
def contentOk (P : String → Bool) (cs : List String) : Prop :=
  2 ≤ cs.length ∧ ∀ i, (h : i < cs.length) → 1 ≤ i → P cs[i] = true

instance (P : String → Bool) (cs : List String) : Decidable (contentOk P cs) :=
  inferInstanceAs (Decidable (_ ∧ _))

/-- An open cursor sitting between the header and the end of the file. -/
def posOk (p? : Option Nat) (cs : List String) : Prop :=
  ∃ p, p? = some p ∧ 1 ≤ p ∧ p ≤ cs.length

/-- Reachable-state invariant of an opened `FileDatasource` over
well-formed files. -/
def DatasourceInv (s : FileDatasource) : Prop :=
  contentOk accLineOk s.accelerometer_content ∧
  contentOk gpsLineOk s.gps_content ∧
  contentOk parkingLineOk s.parking_content ∧
  posOk s.accelerometer_file s.accelerometer_content ∧
  posOk s.gps_file s.gps_content ∧
  posOk s.parking_file s.parking_content

/-- The result of `n` reads yielded one `AggregatedData` per call: the
outcome is a success carrying exactly `n` samples. -/
def producesSamples (n : Nat)
    (r : Option (Except AgentErr (List AggregatedData × FileDatasource))) : Bool :=
  match r with
  | some (.ok (ds, _)) => ds.length == n
  | _ => false

/-- All handles of every registered user, in registry order. -/
def allHandles : Subscriptions → List Nat
  | [] => []
  | (_, l) :: rest => l ++ allHandles rest

/-- A committed row whose fields are all plain values (as produced by the
create path). -/
def DbRow.plainFields (r : DbRow) : Bool :=
  match r.road_state, r.user_id, r.x, r.y, r.z, r.latitude, r.longitude, r.timestamp with
  | .val _, .val _, .val _, .val _, .val _, .val _, .val _, .val _ => true
  | _, _, _, _, _, _, _, _ => false

/-- Example accelerometer file: a header and two data lines. -/
def sampleAccContent : List String := ["x,y,z", "1,2,3", "4,5,6"]

/-- Example gps file: a header and a single data line (the shortest
stream). -/
def sampleGpsContent : List String := ["lat,lon", "10,20"]

/-- Example parking file: a header and two data lines. -/
def sampleParkContent : List String := ["empty,lat,lon", "0,1,2", "0,3,4"]

/-- The example datasource right after its first successful read: every
cursor sits on line 2, so the gps stream (one data line) is exhausted. -/
def sampleDS1 : FileDatasource :=
  ⟨sampleAccContent, sampleGpsContent, sampleParkContent, some 2, some 2, some 2⟩

/-- A valid submitted record for user 1. -/
def sampleRaw : RawProcessedAgentData :=
  ⟨"WORN", ⟨1, ⟨1, 2, 3⟩, ⟨50, 30⟩, "2024-01-01T00:00:00"⟩⟩

/-- A submitted record whose timestamp fails validation. -/
def sampleBadRaw : RawProcessedAgentData :=
  ⟨"WORN", ⟨1, ⟨1, 2, 3⟩, ⟨50, 30⟩, "not-a-date"⟩⟩

/-- Field values of an already-committed example row. -/
def samplePend : DbPending := ⟨"OK", 1, 1, 2, 3, 4, 5, 6⟩

/-- The example committed row, id 1. -/
def sampleRow : DbRow := pendingToRow 1 samplePend

/-- A store holding exactly the example row, with no subscribers. -/
def sampleRowState : AppState := ⟨[sampleRow], 2, []⟩

/-- The example row as the response model. -/
def sampleInDB : ProcessedAgentDataInDB := ⟨1, "OK", 1, 1, 2, 3, 4, 5, 6⟩

/-- A valid replacement record for the update endpoint. -/
def sampleUpd : ProcessedAgentData := ⟨"WORN", ⟨1, ⟨1, 2, 3⟩, ⟨7, 8⟩, 99⟩⟩

/-! ### Helper lemmas about the store model -/

theorem sendLoop_all_ok (env : Nat → Bool) (data : Dumpable) (msg : String)
    (hd : json_dumps data = .ok msg) :
    ∀ l : List Nat, (∀ w ∈ l, env w = true) →
      sendLoop env data l = (l.map (fun w => (w, msg)), none) := by
  intro l
  induction l with
  | nil => intro _; rfl
  | cons w rest ih =>
    intro h
    have hw : env w = true := h w (by simp)
    have hrest := ih (fun x hx => h x (by simp [hx]))
    simp [sendLoop, hd, hw, hrest]

theorem sendLoop_fail (env : Nat → Bool) (data : Dumpable) (msg : String)
    (hd : json_dumps data = .ok msg) :
    ∀ pre : List Nat, ∀ ws : Nat, ∀ post : List Nat,
      (∀ w ∈ pre, env w = true) → env ws = false →
      sendLoop env data (pre ++ ws :: post)
        = (pre.map (fun w => (w, msg)), some .sendFailure) := by
  intro pre
  induction pre with
  | nil => intro ws post _ hws; simp [sendLoop, hd, hws]
  | cons w rest ih =>
    intro ws post hpre hws
    have hw : env w = true := hpre w (by simp)
    have hrest := ih ws post (fun x hx => hpre x (by simp [hx])) hws
    simp [sendLoop, hd, hw, hrest]

theorem fanoutKeys_skip (env : Nat → Bool) (data : Dumpable) (k : Int)
    (v : List Nat) (rest : Subscriptions) :
    ∀ keys : List Int, k ∉ keys →
      fanoutKeys env ((k, v) :: rest) data keys = fanoutKeys env rest data keys := by
  intro keys
  induction keys with
  | nil => intro _; rfl
  | cons uid keys' ih =>
    intro h
    have hne : ¬k = uid := fun he => h (by simp [he])
    have h' : k ∉ keys' := fun hm => h (by simp [hm])
    simp only [fanoutKeys, send_data_to_subscribers, subsLookup, if_neg hne, ih h']

theorem fanout_empty_batch (env : Nat → Bool) :
    ∀ subs : Subscriptions, (subs.map Prod.fst).Nodup →
      (∀ ws ∈ allHandles subs, env ws = true) →
      fanoutKeys env subs (.pendingList []) (subs.map Prod.fst)
        = ((allHandles subs).map (fun ws => (ws, "[]")), none) := by
  intro subs
  induction subs with
  | nil => intro _ _; rfl
  | cons p rest ih =>
    intro hnd henv
    obtain ⟨k, v⟩ := p
    rw [List.map_cons] at hnd
    have hk : k ∉ rest.map Prod.fst := (List.nodup_cons.mp hnd).1
    have hnd' : (rest.map Prod.fst).Nodup := (List.nodup_cons.mp hnd).2
    have hv : ∀ w ∈ v, env w = true := fun w hw =>
      henv w (by simp [allHandles, hw])
    have hrest : ∀ ws ∈ allHandles rest, env ws = true := fun w hw =>
      henv w (by simp [allHandles, hw])
    have hsend := sendLoop_all_ok env (.pendingList []) "[]" rfl v hv
    have hskip := fanoutKeys_skip env (.pendingList []) k v rest (rest.map Prod.fst) hk
    simp [fanoutKeys, send_data_to_subscribers, subsLookup, hsend, hskip,
      ih hnd' hrest, allHandles]

theorem assignIds_snd : ∀ ps : List DbPending, ∀ n : Nat,
    (assignIds n ps).2 = n + ps.length := by
  intro ps
  induction ps with
  | nil => intro n; simp [assignIds]
  | cons p ps' ih => intro n; simp [assignIds, ih]; omega

theorem assignIds_ids : ∀ ps : List DbPending, ∀ n : Nat,
    (assignIds n ps).1.map (fun r => r.id) = List.range' n ps.length := by
  intro ps
  induction ps with
  | nil => intro n; simp [assignIds]
  | cons p ps' ih =>
    intro n
    simp [assignIds, List.range'_succ, ih, pendingToRow]

theorem validateBatch_length : ∀ rs : List RawProcessedAgentData,
    ∀ data : List ProcessedAgentData, validateBatch rs = some data →
      data.length = rs.length := by
  intro rs
  induction rs with
  | nil => intro data h; simp [validateBatch] at h; simp [← h]
  | cons r rs' ih =>
    intro data h
    simp only [validateBatch] at h
    cases hr : validateRecord r with
    | none => simp [hr] at h
    | some v =>
      cases hs : validateBatch rs' with
      | none => simp [hr, hs] at h
      | some vs =>
        simp only [hr, hs, Option.some.injEq] at h
        have := ih vs hs
        simp [← h, this]

theorem find?_filter_out (rows : List DbRow) (pid : Nat) :
    (rows.filter (fun q => ¬q.id = pid)).find? (fun q => q.id == pid) = none := by
  rw [List.find?_eq_none]
  intro x hx
  have hmem := List.of_mem_filter hx
  simp at hmem
  simp [hmem]

/-! ### Claim theorems: the store -/

/-- C2: the claim says each record of a committed batch is pushed exactly
once to each subscriber registered under that record's owning user id and
to nobody else.  Evaluating the create endpoint on a store with a
subscriber for user 1 and one for user 2 and a one-record batch for
user 1: the row is committed, but no subscriber receives anything (the
fanout loop serializes the ORM objects with `json.dumps`, which raises
`TypeError`), and the request fails after the commit. -/
theorem C2_code_bug :
    (create_processed_agent_data (fun _ => true) ⟨[], 1, [(1, [5]), (2, [6])]⟩
        [sampleRaw] true).state.rows.length = 1
    ∧ (create_processed_agent_data (fun _ => true) ⟨[], 1, [(1, [5]), (2, [6])]⟩
        [sampleRaw] true).delivered = []
    ∧ (create_processed_agent_data (fun _ => true) ⟨[], 1, [(1, [5]), (2, [6])]⟩
        [sampleRaw] true).response = .error (.serverError .typeErrorNotSerializable) := by
  decide

/-- C3: `createBatch` is atomic.  If framework validation rejects any
record, the handler never runs: the state is untouched, nothing is
delivered, and a validation error is surfaced.  If the commit fails, the
transaction rolls back: the state is untouched and a persistence error is
surfaced.  If validation and commit succeed, every record is converted
and committed, the new rows carrying the fresh sequential identifiers
`nextId, nextId+1, ...`. -/
theorem C3_theorem (env : Nat → Bool) (st : AppState)
    (raw : List RawProcessedAgentData) (commitOk : Bool) :
    (validateBatch raw = none →
      create_processed_agent_data env st raw commitOk
        = ⟨st, [], .error .validationError⟩)
    ∧ (∀ data, validateBatch raw = some data → commitOk = false →
      create_processed_agent_data env st raw commitOk
        = ⟨st, [], .error .persistenceError⟩)
    ∧ (∀ data, validateBatch raw = some data → commitOk = true →
      (create_processed_agent_data env st raw commitOk).state.rows
          = st.rows ++ (assignIds st.nextId (data.map convert_agent_data)).1
      ∧ (create_processed_agent_data env st raw commitOk).state.nextId
          = st.nextId + raw.length
      ∧ (assignIds st.nextId (data.map convert_agent_data)).1.map (fun r => r.id)
          = List.range' st.nextId raw.length) := by
  refine ⟨fun h => ?_, fun data h hc => ?_, fun data h hc => ?_⟩
  · simp [create_processed_agent_data, h]
  · simp [create_processed_agent_data, h, hc]
  · have hlen : data.length = raw.length := validateBatch_length raw data h
    have hmlen : (data.map convert_agent_data).length = raw.length := by simp [hlen]
    refine ⟨?_, ?_, ?_⟩
    · simp only [create_processed_agent_data, h, hc, if_true]
      rcases hf : fanoutKeys env st.subscriptions
        (.pendingList (data.map convert_agent_data))
        (st.subscriptions.map Prod.fst) with ⟨d, e?⟩
      cases e? <;> simp [hf]
    · simp only [create_processed_agent_data, h, hc, if_true]
      rcases hf : fanoutKeys env st.subscriptions
        (.pendingList (data.map convert_agent_data))
        (st.subscriptions.map Prod.fst) with ⟨d, e?⟩
      cases e? <;> simp [hf, assignIds_snd, hmlen]
    · rw [assignIds_ids, hmlen]

/-- C3 witness: both failure branches and the success branch of
`C3_theorem` at concrete inputs. -/
theorem C3_witness :
    create_processed_agent_data (fun _ => true) ⟨[], 1, []⟩ [sampleBadRaw] true
      = ⟨⟨[], 1, []⟩, [], .error .validationError⟩
    ∧ create_processed_agent_data (fun _ => true) ⟨[], 1, []⟩ [sampleRaw] false
      = ⟨⟨[], 1, []⟩, [], .error .persistenceError⟩
    ∧ (create_processed_agent_data (fun _ => true) ⟨[], 1, []⟩ [sampleRaw] true).state.rows
      = [] ++ (assignIds 1 ([⟨"WORN", ⟨1, ⟨1, 2, 3⟩, ⟨50, 30⟩, 20240101000000⟩⟩].map convert_agent_data)).1 :=
  ⟨(C3_theorem (fun _ => true) ⟨[], 1, []⟩ [sampleBadRaw] true).1 (by decide),
   (C3_theorem (fun _ => true) ⟨[], 1, []⟩ [sampleRaw] false).2.1
     [⟨"WORN", ⟨1, ⟨1, 2, 3⟩, ⟨50, 30⟩, 20240101000000⟩⟩] (by decide) rfl,
   ((C3_theorem (fun _ => true) ⟨[], 1, []⟩ [sampleRaw] true).2.2
     [⟨"WORN", ⟨1, ⟨1, 2, 3⟩, ⟨50, 30⟩, 20240101000000⟩⟩] (by decide) rfl).1⟩

/-- C4: the claim says a delivery failure to one subscriber neither
prevents delivery to the remaining subscribers nor fails the overall
call.  On a store with subscribers 5 and 6 for user 1, where the send to
handle 5 fails, an empty-batch create delivers nothing to handle 6 and
the call fails with the send exception. -/
theorem C4_counterexample :
    create_processed_agent_data (fun ws => ws == 6) ⟨[], 1, [(1, [5, 6])]⟩ [] true
      = ⟨⟨[], 1, [(1, [5, 6])]⟩, [], .error (.serverError .sendFailure)⟩ := by
  decide

/-- C4 amended: a delivery failure to one subscriber propagates out of
`send_data_to_subscribers` uncaught: the subscribers before the failing
one in the iteration receive the message, every later subscriber receives
nothing, and the overall call fails with the send exception. -/
theorem C4_amended (env : Nat → Bool) (st : AppState) (uid : Int)
    (pre post : List Nat) (ws : Nat)
    (hsubs : st.subscriptions = [(uid, pre ++ ws :: post)])
    (hpre : ∀ w ∈ pre, env w = true) (hws : env ws = false) :
    create_processed_agent_data env st [] true
      = ⟨st, pre.map (fun w => (w, "[]")), .error (.serverError .sendFailure)⟩ := by
  have hsend := sendLoop_fail env (.pendingList []) "[]" rfl pre ws post hpre hws
  rcases st with ⟨rows, nid, subs⟩
  obtain rfl : subs = [(uid, pre ++ ws :: post)] := hsubs
  simp [create_processed_agent_data, validateBatch, assignIds,
    fanoutKeys, send_data_to_subscribers, subsLookup, hsend]

/-- C4 amended witness: handle 4 is delivered to, the send to handle 5
fails, handle 6 receives nothing, the call errors. -/
theorem C4_witness :
    create_processed_agent_data (fun w => w == 4) ⟨[], 1, [(1, [4, 5, 6])]⟩ [] true
      = ⟨⟨[], 1, [(1, [4, 5, 6])]⟩, [4].map (fun w => (w, "[]")),
          .error (.serverError .sendFailure)⟩ :=
  C4_amended (fun w => w == 4) ⟨[], 1, [(1, [4, 5, 6])]⟩ 1 [4] [6] 5 rfl
    (by decide) (by decide)

/-- C5: the claim says removal of a handle absent from the user's set is
a no-op that does not fail.  On a registry where user 1's set is empty
(the handle already removed), `subscriptions[user_id].remove(websocket)`
raises `KeyError`. -/
theorem C5_counterexample :
    subscriptions_remove [(1, ([] : List Nat))] 1 7 = .error .keyError := by
  decide

/-- C5 amended: removal of a handle present in the user's set succeeds
and erases exactly that handle (and removal still succeeds when the live
connection is already gone, since it only touches the registry entry);
but removal of an absent handle — unknown user id or handle not in the
set — raises `KeyError` instead of being a no-op. -/
theorem C5_amended (subs : Subscriptions) (uid : Int) (ws : Nat) :
    (subsLookup subs uid = none →
      subscriptions_remove subs uid ws = .error .keyError)
    ∧ (∀ l, subsLookup subs uid = some l → ws ∉ l →
      subscriptions_remove subs uid ws = .error .keyError)
    ∧ (∀ l, subsLookup subs uid = some l → ws ∈ l →
      subscriptions_remove subs uid ws = .ok (subsUpdate subs uid (l.erase ws))) := by
  refine ⟨fun h => ?_, fun l h hm => ?_, fun l h hm => ?_⟩
  · simp [subscriptions_remove, h]
  · simp [subscriptions_remove, h, hm]
  · simp [subscriptions_remove, h, hm]

/-- C5 amended witness: removing present handle 7 succeeds; removing it
again (now absent) raises `KeyError`. -/
theorem C5_witness :
    subscriptions_remove [(1, [5, 7])] 1 7
      = .ok (subsUpdate [(1, [5, 7])] 1 (List.erase [5, 7] 7))
    ∧ subscriptions_remove [(1, [5])] 1 7 = .error .keyError :=
  ⟨(C5_amended [(1, [5, 7])] 1 7).2.2 [5, 7] rfl (by decide),
   (C5_amended [(1, [5])] 1 7).2.1 [5] rfl (by decide)⟩

/-- C6: the claim says `updateById(id, R)` replaces all mutable fields
with R's values and a subsequent `getById(id)` returns R's fields with
the original id.  Evaluating the update endpoint on the example row with
id 1: every source assignment ends in a trailing comma, so the committed
row stores the one-element tuple `(value,)` in each field instead of R's
value; the response fails pydantic revalidation, and the subsequent
`getById(1)` errors instead of returning R's fields. -/
theorem C6_code_bug :
    (update_processed_agent_data (fun _ => true) sampleRowState 1 sampleUpd).state.rows
      = [⟨1, .tup1 "WORN", .tup1 1, .tup1 1, .tup1 2, .tup1 3, .tup1 7, .tup1 8, .tup1 99⟩]
    ∧ (update_processed_agent_data (fun _ => true) sampleRowState 1 sampleUpd).response
      = .error (.serverError .pydanticValidation)
    ∧ read_processed_agent_data
        (update_processed_agent_data (fun _ => true) sampleRowState 1 sampleUpd).state 1
      = .error (.serverError .pydanticValidation) := by
  decide

/-- C7: `deleteById` on an existing row returns the row as it existed
immediately before deletion and removes it; on an absent id it returns
the explicit not-found signal (`None`) without raising; and `getById` as
well as a second `deleteById` on the freshly deleted id observe
not-found. -/
theorem C7_theorem (st : AppState) (pid : Nat) :
    (st.rows.find? (fun q => q.id == pid) = none →
      delete_processed_agent_data st pid = (st, .ok none))
    ∧ (∀ r v, st.rows.find? (fun q => q.id == pid) = some r →
      model_validate r = .ok v →
      delete_processed_agent_data st pid
        = (⟨st.rows.filter (fun q => ¬q.id = pid), st.nextId, st.subscriptions⟩,
            .ok (some v))
      ∧ read_processed_agent_data
          (⟨st.rows.filter (fun q => ¬q.id = pid), st.nextId, st.subscriptions⟩ : AppState)
          pid = .ok none
      ∧ delete_processed_agent_data
          (⟨st.rows.filter (fun q => ¬q.id = pid), st.nextId, st.subscriptions⟩ : AppState)
          pid
        = (⟨st.rows.filter (fun q => ¬q.id = pid), st.nextId, st.subscriptions⟩,
            .ok none)) := by
  constructor
  · intro h
    simp [delete_processed_agent_data, h]
  · intro r v h hv
    have hnone := find?_filter_out st.rows pid
    refine ⟨?_, ?_, ?_⟩
    · simp [delete_processed_agent_data, h, hv]
    · simp only [read_processed_agent_data]
      rw [hnone]
    · simp only [delete_processed_agent_data]
      rw [hnone]

/-- C7 witness: deleting the example row id 1 returns its pre-deletion
contents and removes it; reading and deleting id 1 afterwards observe
not-found; deleting an absent id is a no-op signal. -/
theorem C7_witness :
    delete_processed_agent_data sampleRowState 1
      = (⟨sampleRowState.rows.filter (fun q => ¬q.id = 1), sampleRowState.nextId,
          sampleRowState.subscriptions⟩, .ok (some sampleInDB))
    ∧ read_processed_agent_data
        (⟨sampleRowState.rows.filter (fun q => ¬q.id = 1), sampleRowState.nextId,
          sampleRowState.subscriptions⟩ : AppState) 1 = .ok none
    ∧ delete_processed_agent_data ⟨[], 5, []⟩ 3 = (⟨[], 5, []⟩, .ok none) :=
  ⟨((C7_theorem sampleRowState 1).2 sampleRow sampleInDB (by decide) (by decide)).1,
   ((C7_theorem sampleRowState 1).2 sampleRow sampleInDB (by decide) (by decide)).2.1,
   (C7_theorem ⟨[], 5, []⟩ 3).1 rfl⟩

/-- C8: the claim says `createBatch([])` adds no rows, triggers no push
to any subscriber, and returns without error.  On a store with one
subscriber, the empty-batch create still sends that subscriber one
message (the serialized empty list). -/
theorem C8_counterexample :
    (create_processed_agent_data (fun _ => true) ⟨[], 1, [(1, [5])]⟩ [] true).delivered
      = [(5, "[]")] := by
  decide

/-- C8 amended: `createBatch([])` adds no rows and returns without error,
but it still pushes one message containing the serialized empty list to
every registered subscriber of every user (when all sends succeed). -/
theorem C8_amended (env : Nat → Bool) (st : AppState)
    (hnd : (st.subscriptions.map Prod.fst).Nodup)
    (henv : ∀ ws ∈ allHandles st.subscriptions, env ws = true) :
    create_processed_agent_data env st [] true
      = ⟨st, (allHandles st.subscriptions).map (fun ws => (ws, "[]")), .ok ()⟩ := by
  have key := fanout_empty_batch env st.subscriptions hnd henv
  simp [create_processed_agent_data, validateBatch, assignIds, key]

/-- C8 amended witness: subscribers 5 (user 1) and 6 (user 2) each
receive the serialized empty list; the store is unchanged and the call
succeeds. -/
theorem C8_witness :
    create_processed_agent_data (fun _ => true) ⟨[], 1, [(1, [5]), (2, [6])]⟩ [] true
      = ⟨⟨[], 1, [(1, [5]), (2, [6])]⟩,
          (allHandles [(1, [5]), (2, [6])]).map (fun ws => (ws, "[]")), .ok ()⟩ :=
  C8_amended (fun _ => true) ⟨[], 1, [(1, [5]), (2, [6])]⟩ (by decide) (by decide)

/-! ### Claim theorems: the agent datasource -/

/-- C1: the claim says that when one stream reaches end-of-stream during
`read()`, only that stream is closed and reopened and the other two read
positions are left unchanged.  On the example datasource (gps is the
shortest stream), the read that exhausts gps first advances the
accelerometer cursor to 3, then restarts: the returned state has the
accelerometer cursor rewound to 2 and the parking cursor rewound to 2,
and the returned sample re-reads the first accelerometer and parking data
lines instead of continuing from the unread ones. -/
theorem C1_counterexample :
    readAttempt 0 sampleDS1
      = .stop ⟨sampleAccContent, sampleGpsContent, sampleParkContent,
          some 3, some 2, some 2⟩
    ∧ readLoop 0 2 sampleDS1
      = some (.ok (⟨⟨1, 2, 3⟩, ⟨10, 20⟩, ⟨0, ⟨1, 2⟩⟩, 0, 1⟩,
          ⟨sampleAccContent, sampleGpsContent, sampleParkContent,
            some 2, some 2, some 2⟩)) := by
  decide

/-- C1 amended: when any one of the three streams reaches end-of-stream
during `read()`, the `except StopIteration` handler calls
`startReading()`, which reopens all three files and discards the header
of each: the whole read is retried with all three cursors rewound to the
first data line, the non-exhausted streams included. -/
theorem C1_amended (now : Int) (fuel : Nat) (s s' : FileDatasource)
    (h : readAttempt now s = .stop s')
    (h1 : 1 ≤ s'.accelerometer_content.length)
    (h2 : 1 ≤ s'.gps_content.length)
    (h3 : 1 ≤ s'.parking_content.length) :
    readLoop now (fuel + 1) s
      = readLoop now fuel
          ⟨s'.accelerometer_content, s'.gps_content, s'.parking_content,
            some 1, some 1, some 1⟩ := by
  have e1 : ¬s'.accelerometer_content.length = 0 := by omega
  have e2 : ¬s'.gps_content.length = 0 := by omega
  have e3 : ¬s'.parking_content.length = 0 := by omega
  have hstart : startReading s'
      = (⟨s'.accelerometer_content, s'.gps_content, s'.parking_content,
          some 1, some 1, some 1⟩, none) := by
    simp [startReading, e1, e2, e3]
  simp [readLoop, h, hstart]

/-- C1 amended witness: on the example datasource the second read, which
exhausts the gps stream, is the same as a fresh read on the datasource
with all three cursors rewound to the first data line. -/
theorem C1_witness :
    readLoop 0 2 sampleDS1
      = readLoop 0 1 ⟨sampleAccContent, sampleGpsContent, sampleParkContent,
          some 1, some 1, some 1⟩ :=
  C1_amended 0 1 sampleDS1
    ⟨sampleAccContent, sampleGpsContent, sampleParkContent, some 3, some 2, some 2⟩
    (by decide) (by decide) (by decide) (by decide)

/-- C10: on a `FileDatasource` on which `startReading()` has not been
called (all handles are `None` from `__init__`), `read()` raises
`ValueError` instead of returning a sample; the guard tests only the
accelerometer and gps handles, so it fires whenever one of those two is
not open and never fires — whatever the parking handle is — when both are
open. -/
theorem C10_theorem (now : Int) :
    (∀ cA cG cP : List String, ∀ n : Nat,
      readLoop now (n + 1) ⟨cA, cG, cP, none, none, none⟩
        = some (.error .valueErrorNotOpened))
    ∧ (∀ s : FileDatasource, s.accelerometer_file = none ∨ s.gps_file = none →
      readAttempt now s = .err .valueErrorNotOpened s)
    ∧ (∀ s : FileDatasource, ∀ pa pg : Nat, s.accelerometer_file = some pa →
      s.gps_file = some pg → ∀ s' : FileDatasource,
      readAttempt now s ≠ .err .valueErrorNotOpened s') := by
  refine ⟨fun cA cG cP n => ?_, fun s h => ?_, fun s pa pg hpa hpg s' => ?_⟩
  · simp [readLoop, readAttempt]
  · rcases h with h | h <;> simp [readAttempt, h]
  · simp only [readAttempt, hpa, hpg, Option.isNone_some, Bool.or_self,
      Bool.false_eq_true, if_false]
    split
    · simp
    · split
      · simp
      · split
        · simp
        · split
          · simp
          · split
            · simp
            · split
              · simp
              · split
                · simp
                · simp

/-- C10 witness: a fresh datasource errors on read; the guard fires with
only the accelerometer handle missing; the guard does not fire when the
accelerometer and gps handles are open but the parking handle is not. -/
theorem C10_witness :
    readLoop 0 1 ⟨["h"], ["h"], ["h"], none, none, none⟩
      = some (.error .valueErrorNotOpened)
    ∧ readAttempt 0 ⟨sampleAccContent, sampleGpsContent, sampleParkContent,
        none, some 1, some 1⟩
      = .err .valueErrorNotOpened ⟨sampleAccContent, sampleGpsContent,
          sampleParkContent, none, some 1, some 1⟩
    ∧ readAttempt 0 ⟨sampleAccContent, sampleGpsContent, sampleParkContent,
        some 1, some 1, none⟩
      ≠ .err .valueErrorNotOpened ⟨sampleAccContent, sampleGpsContent,
          sampleParkContent, some 1, some 1, none⟩ :=
  ⟨(C10_theorem 0).1 ["h"] ["h"] ["h"] 0,
   (C10_theorem 0).2.1 _ (Or.inl rfl),
   (C10_theorem 0).2.2 _ 1 1 rfl rfl _⟩

/-! ### Lemmas for continuous reading (C9) -/

theorem exceptOk_exists {ε α : Type} (e : Except ε α) (h : exceptOk e = true) :
    ∃ a, e = .ok a := by
  cases e with
  | ok a => exact ⟨a, rfl⟩
  | error _ => simp [exceptOk] at h

theorem readLine_lt {cs : List String} {p : Nat} (h : p < cs.length) :
    readLine cs p = some (cs[p], p + 1) := by
  simp [readLine, h]

theorem readLine_ge {cs : List String} {p : Nat} (h : ¬p < cs.length) :
    readLine cs p = none := by
  simp [readLine, h]

theorem startReading_reset (cA cG cP : List String)
    (af gf pf : Option Nat)
    (h1 : 1 ≤ cA.length) (h2 : 1 ≤ cG.length) (h3 : 1 ≤ cP.length) :
    startReading ⟨cA, cG, cP, af, gf, pf⟩
      = (⟨cA, cG, cP, some 1, some 1, some 1⟩, none) := by
  have e1 : ¬cA.length = 0 := by omega
  have e2 : ¬cG.length = 0 := by omega
  have e3 : ¬cP.length = 0 := by omega
  simp [startReading, e1, e2, e3]

theorem DatasourceInv.build (cA cG cP : List String) (pa pg pp : Nat)
    (hA : contentOk accLineOk cA) (hG : contentOk gpsLineOk cG)
    (hP : contentOk parkingLineOk cP)
    (h1 : 1 ≤ pa) (h2 : pa ≤ cA.length)
    (h3 : 1 ≤ pg) (h4 : pg ≤ cG.length)
    (h5 : 1 ≤ pp) (h6 : pp ≤ cP.length) :
    DatasourceInv ⟨cA, cG, cP, some pa, some pg, some pp⟩ :=
  ⟨hA, hG, hP, ⟨pa, rfl, h1, h2⟩, ⟨pg, rfl, h3, h4⟩, ⟨pp, rfl, h5, h6⟩⟩

theorem readAttempt_ok (now : Int) (cA cG cP : List String) (pa pg pp : Nat)
    (hA : contentOk accLineOk cA) (hG : contentOk gpsLineOk cG)
    (hP : contentOk parkingLineOk cP)
    (ha1 : 1 ≤ pa) (haL : pa < cA.length)
    (hg1 : 1 ≤ pg) (hgL : pg < cG.length)
    (hp1 : 1 ≤ pp) (hpL : pp < cP.length) :
    ∃ d, readAttempt now ⟨cA, cG, cP, some pa, some pg, some pp⟩
      = .ok d ⟨cA, cG, cP, some (pa + 1), some (pg + 1), some (pp + 1)⟩ := by
  obtain ⟨acc, hacc⟩ := exceptOk_exists _ (hA.2 pa haL ha1)
  obtain ⟨gps, hgps⟩ := exceptOk_exists _ (hG.2 pg hgL hg1)
  obtain ⟨pk, hpk⟩ := exceptOk_exists _ (hP.2 pp hpL hp1)
  refine ⟨⟨acc, gps, pk, now, config_USER_ID⟩, ?_⟩
  simp [readAttempt, readLine_lt haL, readLine_lt hgL, readLine_lt hpL,
    hacc, hgps, hpk]

theorem readAttempt_stop_acc (now : Int) (cA cG cP : List String)
    (pa pg pp : Nat) (haL : ¬pa < cA.length) :
    readAttempt now ⟨cA, cG, cP, some pa, some pg, some pp⟩
      = .stop ⟨cA, cG, cP, some pa, some pg, some pp⟩ := by
  simp [readAttempt, readLine_ge haL]

theorem readAttempt_stop_gps (now : Int) (cA cG cP : List String)
    (pa pg pp : Nat) (hA : contentOk accLineOk cA)
    (ha1 : 1 ≤ pa) (haL : pa < cA.length) (hgL : ¬pg < cG.length) :
    readAttempt now ⟨cA, cG, cP, some pa, some pg, some pp⟩
      = .stop ⟨cA, cG, cP, some (pa + 1), some pg, some pp⟩ := by
  obtain ⟨acc, hacc⟩ := exceptOk_exists _ (hA.2 pa haL ha1)
  simp [readAttempt, readLine_lt haL, hacc, readLine_ge hgL]

theorem readAttempt_stop_park (now : Int) (cA cG cP : List String)
    (pa pg pp : Nat) (hA : contentOk accLineOk cA) (hG : contentOk gpsLineOk cG)
    (ha1 : 1 ≤ pa) (haL : pa < cA.length)
    (hg1 : 1 ≤ pg) (hgL : pg < cG.length) (hpL : ¬pp < cP.length) :
    readAttempt now ⟨cA, cG, cP, some pa, some pg, some pp⟩
      = .stop ⟨cA, cG, cP, some (pa + 1), some (pg + 1), some pp⟩ := by
  obtain ⟨acc, hacc⟩ := exceptOk_exists _ (hA.2 pa haL ha1)
  obtain ⟨gps, hgps⟩ := exceptOk_exists _ (hG.2 pg hgL hg1)
  simp [readAttempt, readLine_lt haL, hacc, readLine_lt hgL, hgps,
    readLine_ge hpL]

theorem readLoop2_ok (now : Int) (s : FileDatasource) (h : DatasourceInv s) :
    ∃ d s', readLoop now 2 s = some (.ok (d, s')) ∧ DatasourceInv s' := by
  obtain ⟨cA, cG, cP, af, gf, pf⟩ := s
  obtain ⟨hA, hG, hP, hposA, hposG, hposP⟩ := h
  obtain ⟨pa, haf, ha1, haL⟩ := hposA
  obtain ⟨pg, hgf, hg1, hgL⟩ := hposG
  obtain ⟨pp, hpf, hp1, hpL⟩ := hposP
  have lA : 2 ≤ cA.length := hA.1
  have lG : 2 ≤ cG.length := hG.1
  have lP : 2 ≤ cP.length := hP.1
  subst haf hgf hpf
  -- the second attempt, after a restart, always succeeds from position 1
  have hretry := readAttempt_ok now cA cG cP 1 1 1 hA hG hP
    (le_refl 1) (by omega) (le_refl 1) (by omega) (le_refl 1) (by omega)
  obtain ⟨d1, hd1⟩ := hretry
  have hInv2 : DatasourceInv ⟨cA, cG, cP, some 2, some 2, some 2⟩ :=
    DatasourceInv.build cA cG cP 2 2 2 hA hG hP
      (by omega) lA (by omega) lG (by omega) lP
  have hreset := startReading_reset cA cG cP
  by_cases c1 : pa < cA.length
  · by_cases c2 : pg < cG.length
    · by_cases c3 : pp < cP.length
      · obtain ⟨d, hd⟩ := readAttempt_ok now cA cG cP pa pg pp hA hG hP
          ha1 c1 hg1 c2 hp1 c3
        refine ⟨d, ⟨cA, cG, cP, some (pa + 1), some (pg + 1), some (pp + 1)⟩, ?_, ?_⟩
        · simp [readLoop, hd]
        · exact DatasourceInv.build cA cG cP (pa + 1) (pg + 1) (pp + 1) hA hG hP
            (by omega) (by omega) (by omega) (by omega) (by omega) (by omega)
      · have hstop := readAttempt_stop_park now cA cG cP pa pg pp hA hG
          ha1 c1 hg1 c2 c3
        refine ⟨d1, ⟨cA, cG, cP, some 2, some 2, some 2⟩, ?_, hInv2⟩
        simp [readLoop, hstop,
          hreset (some (pa + 1)) (some (pg + 1)) (some pp)
            (by omega) (by omega) (by omega), hd1]
    · have hstop := readAttempt_stop_gps now cA cG cP pa pg pp hA ha1 c1 c2
      refine ⟨d1, ⟨cA, cG, cP, some 2, some 2, some 2⟩, ?_, hInv2⟩
      simp [readLoop, hstop,
        hreset (some (pa + 1)) (some pg) (some pp)
          (by omega) (by omega) (by omega), hd1]
  · have hstop := readAttempt_stop_acc now cA cG cP pa pg pp c1
    refine ⟨d1, ⟨cA, cG, cP, some 2, some 2, some 2⟩, ?_, hInv2⟩
    simp [readLoop, hstop,
      hreset (some pa) (some pg) (some pp)
        (by omega) (by omega) (by omega), hd1]

theorem readN_ok (now : Int) : ∀ N : Nat, ∀ s : FileDatasource,
    DatasourceInv s →
      ∃ ds s', readN now N s = some (.ok (ds, s'))
        ∧ ds.length = N ∧ DatasourceInv s' := by
  intro N
  induction N with
  | zero => intro s h; exact ⟨[], s, rfl, rfl, h⟩
  | succ n ih =>
    intro s h
    obtain ⟨d, s', hd, h'⟩ := readLoop2_ok now s h
    obtain ⟨ds, s'', hds, hlen, h''⟩ := ih s' h'
    exact ⟨d :: ds, s'', by simp [readN, hd, hds], by simp [hlen], h''⟩

/-! ### Claim theorem C9 -/

/-- C9: for a datasource opened over three files that each consist of a
header line plus well-formed data lines (at least one each), every one of
`N` successive `read()` calls — for any `N`, in particular any `N`
exceeding the shortest stream's data-line count — terminates with an
`AggregatedData` value (loop fuel 2 suffices): end-of-stream is
transparently recovered by restarting, and reading continues. -/
theorem C9_theorem (now : Int) (cA cG cP : List String)
    (hA : contentOk accLineOk cA) (hG : contentOk gpsLineOk cG)
    (hP : contentOk parkingLineOk cP) (N : Nat) :
    producesSamples N
      (readN now N (startReading ⟨cA, cG, cP, none, none, none⟩).1) = true := by
  have lA : 2 ≤ cA.length := hA.1
  have lG : 2 ≤ cG.length := hG.1
  have lP : 2 ≤ cP.length := hP.1
  have hstart := startReading_reset cA cG cP none none none
    (by omega) (by omega) (by omega)
  have hInv : DatasourceInv ⟨cA, cG, cP, some 1, some 1, some 1⟩ :=
    DatasourceInv.build cA cG cP 1 1 1 hA hG hP
      (le_refl 1) (by omega) (le_refl 1) (by omega) (le_refl 1) (by omega)
  obtain ⟨ds, s', hds, hlen, _⟩ := readN_ok now N _ hInv
  rw [hstart]
  simp [producesSamples, hds, hlen]

/-- C9 witness: on the example files (gps has a single data line, the
shortest stream), three successive reads — more than the shortest
stream's data-line count — all yield a sample. -/
theorem C9_witness :
    producesSamples 3
      (readN 0 3 (startReading ⟨sampleAccContent, sampleGpsContent,
        sampleParkContent, none, none, none⟩).1) = true :=
  C9_theorem 0 sampleAccContent sampleGpsContent sampleParkContent
    (by decide) (by decide) (by decide) 3

end IIoT
